import Mathlib

/-!
Verification development for the express-jobly job model and its query
builders, as a shallow embedding of:
  - src/models/job.js        (Job.findAll, Job.findAllFiltered, Job.get,
                              Job.update, Job.remove)
  - src/routes/jobs.js       (GET /jobs route handler)
  - helpers/sql.js           (sqlForPartialUpdate; the implementation file is
                              absent, so it is modelled from the spec and
                              validated against src/helpers/sql.test.js)

JavaScript dynamic values that flow through these functions (query-string
strings, numbers, null, undefined, booleans) are embedded as `JSVal`; SQL
queries are embedded as a structured `QuerySpec` holding the WHERE clause
text exactly as the source writes it, the positional parameter list, and
the ORDER BY text.
-/

namespace Jobly

/-- A JavaScript value as it can appear in the payloads and criteria handled
by this code: `undefined`, `null`, booleans, (integer) numbers and strings. -/
inductive JSVal where
  | undef
  | null
  | bool (b : Bool)
  | num (n : Int)
  | str (s : String)
deriving DecidableEq, Repr

/-- JavaScript truthiness: `undefined`, `null`, `false`, `0` and `""` are
falsy; everything else embedded here is truthy. -/
def JSVal.truthy : JSVal → Bool
  | .undef => false
  | .null => false
  | .bool b => b
  | .num n => n != 0
  | .str s => s != ""

/-- JavaScript template-literal interpolation of a value, as in `` `%${title}%` ``. -/
def JSVal.display : JSVal → String
  | .undef => "undefined"
  | .null => "null"
  | .bool b => if b then "true" else "false"
  | .num n => toString n
  | .str s => s

/-- ASCII space-like characters removed by JavaScript number conversion. -/
def isSpaceChar (c : Char) : Bool :=
  c == ' ' || c == '\t' || c == '\n' || c == '\r'

/-- Strip leading and trailing whitespace from a character list. -/
def trimChars (cs : List Char) : List Char :=
  ((cs.dropWhile isSpaceChar).reverse.dropWhile isSpaceChar).reverse

/-- Value of a non-empty all-digit character list, `none` otherwise. -/
def digitsVal : List Char → Option Nat
  | [] => none
  | cs =>
    if cs.all Char.isDigit then
      some (cs.foldl (fun a c => a * 10 + (c.toNat - 48)) 0)
    else none

/-- JavaScript `Number(string)` restricted to the integer forms relevant
here: optional sign and decimal digits after trimming whitespace; the empty
(or all-whitespace) string converts to `0`; anything else is NaN (`none`). -/
def strToNum (s : String) : Option Int :=
  match trimChars s.toList with
  | [] => some (0 : Int)
  | '-' :: cs => (digitsVal cs).map (fun n => -(n : Int))
  | '+' :: cs => (digitsVal cs).map (fun n => (n : Int))
  | cs => (digitsVal cs).map (fun n => (n : Int))

/-- JavaScript `Number(v)` on an embedded value; `none` means NaN. -/
def jsToNumber : JSVal → Option Int
  | .undef => none
  | .null => some 0
  | .bool b => some (if b then 1 else 0)
  | .num n => some n
  | .str s => strToNum s

/-- JavaScript global `isNaN(v)`: true when `Number(v)` is NaN. -/
def JSVal.isNaN (v : JSVal) : Bool := (jsToNumber v).isNone

/-- The argument object of `Job.findAllFiltered({ title, minSalary, hasEquity })`:
three properties, each possibly `undefined` (absent). -/
structure FilterCriteria where
  title : JSVal := .undef
  minSalary : JSVal := .undef
  hasEquity : JSVal := .undef
deriving DecidableEq, Repr

/-- A parameterized query as built by the model layer: the text of the WHERE
clause (exactly as written in src/models/job.js), the positional parameter
array passed to `db.query`, and the ORDER BY text. -/
structure QuerySpec where
  whereClause : String
  params : List JSVal
  orderBy : String
deriving DecidableEq, Repr

/-- The ORDER BY clause of `Job.findAll` (src/models/job.js line 49):
`ORDER BY company_handle`, i.e. ascending by company handle. -/
def findAllOrderBy : String := "company_handle"

/-- Embedding of `Job.findAllFiltered` (src/models/job.js lines 55-148):
seven explicit presence combinations of the three criteria, each issuing a
fixed parameterized query; the all-falsy combination matches no branch and
the function returns `undefined` (`none`) without issuing a query. -/
def findAllFiltered (c : FilterCriteria) : Option QuerySpec :=
  if c.title.truthy && c.minSalary.truthy && c.hasEquity.truthy then
    some ⟨"LOWER(jobs.title) LIKE $1 AND salary >= $2 AND equity != $3",
          [.str ("%" ++ c.title.display ++ "%"), c.minSalary, .num 0],
          "salary DESC"⟩
  else if c.title.truthy && !c.minSalary.truthy && !c.hasEquity.truthy then
    some ⟨"LOWER(jobs.title) LIKE $1",
          [.str ("%" ++ c.title.display ++ "%")],
          "salary DESC"⟩
  else if c.title.truthy && c.minSalary.truthy && !c.hasEquity.truthy then
    some ⟨"LOWER(jobs.title) LIKE $1 AND salary >= $2",
          [.str ("%" ++ c.title.display ++ "%"), c.minSalary],
          "salary DESC"⟩
  else if c.title.truthy && !c.minSalary.truthy && c.hasEquity.truthy then
    some ⟨"LOWER(jobs.title) LIKE $1 AND equity != $2",
          [.str ("%" ++ c.title.display ++ "%"), .num 0],
          "salary DESC"⟩
  else if !c.title.truthy && c.minSalary.truthy && c.hasEquity.truthy then
    some ⟨"salary >= $1 AND equity != $2",
          [c.minSalary, .num 0],
          "salary DESC"⟩
  else if !c.title.truthy && c.minSalary.truthy && !c.hasEquity.truthy then
    some ⟨"salary >= $1",
          [c.minSalary],
          "salary DESC"⟩
  else if !c.title.truthy && !c.minSalary.truthy && c.hasEquity.truthy then
    some ⟨"equity != $1",
          [.num 0],
          "salary DESC"⟩
  else
    none

/-- Modelled from the spec: the error classes of `expressError.js` are not
under src/ (only their uses are). Per spec sections 6 and 7, a bad-request
(`NoFieldsError` / `BadRequestError`) maps to HTTP 400, not-found
(`NotFoundError`) to HTTP 404, and a route-level `ExpressError` carries its
own status. -/
inductive JobError where
  | badRequest (msg : String)
  | notFound (msg : String)
  | express (msg : String) (status : Nat)
  | dbFault (msg : String)
deriving DecidableEq, Repr

/-- Modelled from the spec: the HTTP status that the error-mapping layer
(absent from src/) assigns to each error class, per spec section 6:
`NoFieldsError` and duplicate-key map to 400, not-found to 404, any other
execution fault to 500. -/
def httpStatus : JobError → Nat
  | .badRequest _ => 400
  | .notFound _ => 404
  | .express _ s => s
  | .dbFault _ => 500

/-- True exactly for the not-found error class. -/
def JobError.isNotFoundClass : JobError → Bool
  | .notFound _ => true
  | _ => false

/-- The `{ setCols, values }` object returned by `sqlForPartialUpdate`. -/
structure SetClauseResult where
  setCols : String
  values : List JSVal
deriving DecidableEq, Repr

/-- One `"<column>"=$<i>` fragment per payload key, in payload order,
starting the 1-based placeholder numbering at `i + 1`: the column name is the
alias-map entry for the key when present, else the key itself, quoted. -/
def setFragments (jsToSql : List (String × String)) : Nat → List (String × JSVal) → List String
  | _, [] => []
  | i, kv :: rest =>
    ("\"" ++ ((jsToSql.lookup kv.1).getD kv.1) ++ "\"=$" ++ toString (i + 1))
      :: setFragments jsToSql (i + 1) rest

/-- Modelled from the spec: the implementation file `helpers/sql.js` is not
under src/ (only its test `src/helpers/sql.test.js` and its caller
`Job.update` are). Per spec section 4.1: an empty payload fails with the
`NoFieldsError`-class bad-request error; otherwise the payload's keys are
iterated in insertion order, each key's column name is resolved via the
alias map falling back to the key itself, fragments `"<column>"=$<i>` are
numbered 1..N in that order and comma-joined, and the values pass through
unchanged in the same order. The payload is embedded as an
insertion-ordered key/value list. -/
def sqlForPartialUpdate (data : List (String × JSVal)) (jsToSql : List (String × String)) :
    Except JobError SetClauseResult :=
  if data.length = 0 then
    .error (.badRequest "No data")
  else
    .ok { setCols := String.intercalate ", " (setFragments jsToSql 0 data),
          values := data.map Prod.snd }

/-- A row of the `jobs` table: `id` integer primary key, `title`, `salary`,
`equity` as stored values, `company_handle` foreign key. -/
structure JobRow where
  id : Int
  title : JSVal
  salary : JSVal
  equity : JSVal
  company_handle : String
deriving DecidableEq, Repr

/-- Semantic effect of assigning one column of the `jobs` table; a column
name outside the table is a query fault (`none`). -/
def setColumn (r : JobRow) (col : String) (v : JSVal) : Option JobRow :=
  if col = "title" then some { r with title := v }
  else if col = "salary" then some { r with salary := v }
  else if col = "equity" then some { r with equity := v }
  else none

/-- Apply a SET list (column, bound value) left to right to one row. -/
def applySets (r : JobRow) : List (String × JSVal) → Option JobRow
  | [] => some r
  | (c, v) :: rest =>
    match setColumn r c v with
    | none => none
    | some r2 => applySets r2 rest

/-- Semantics of `UPDATE jobs SET ... WHERE id = <n> RETURNING ...` on a
table held as a row list: every row whose `id` equals `n` is updated, other
rows are untouched, and the first updated row in table order is returned
(`result.rows[0]`); `none` signals a query fault (unknown column). -/
def dbUpdateJobs : List JobRow → Int → List (String × JSVal) → Option (List JobRow × Option JobRow)
  | [], _, _ => some ([], none)
  | r :: rest, n, sets =>
    match dbUpdateJobs rest n sets with
    | none => none
    | some (rest2, ret) =>
      if r.id = n then
        match applySets r sets with
        | none => none
        | some r2 => some (r2 :: rest2, some r2)
      else
        some (r :: rest2, ret)

/-- The alias map `Job.update` passes to `sqlForPartialUpdate`
(src/models/job.js lines 196-200): identity on title, salary and equity. -/
def jobUpdateAliases : List (String × String) :=
  [("title", "title"), ("salary", "salary"), ("equity", "equity")]

/-- The (column, bound value) pairs denoted by the generated SET clause:
for each payload key in order, the alias-resolved column name paired with
the payload value bound to that key's placeholder. -/
def updateSetPairs (data : List (String × JSVal)) (jsToSql : List (String × String)) :
    List (String × JSVal) :=
  data.map (fun kv => ((jsToSql.lookup kv.1).getD kv.1, kv.2))

namespace Job

/-- Embedding of `Job.get` (src/models/job.js lines 158-178): a NaN
identifier throws `NotFoundError`, then the row with the given id is
selected; no row also throws `NotFoundError`. -/
def get (table : List JobRow) (id : JSVal) : Except JobError JobRow :=
  if id.isNaN then
    .error (.notFound ("Invalid Job ID: " ++ id.display))
  else
    match jsToNumber id with
    | none => .error (.notFound ("Invalid Job ID: " ++ id.display))
    | some n =>
      match table.find? (fun r => r.id = n) with
      | none => .error (.notFound ("Invalid Job ID: " ++ id.display))
      | some r => .ok r

/-- Embedding of `Job.update` (src/models/job.js lines 192-217): a NaN
identifier throws `NotFoundError` first; then `sqlForPartialUpdate` builds
the SET clause (its error propagates); the generated
`UPDATE jobs SET ... WHERE id = $N RETURNING ...` runs with the payload
values followed by the id; an empty result throws `NotFoundError`. -/
def update (table : List JobRow) (id : JSVal) (data : List (String × JSVal)) :
    Except JobError (List JobRow × JobRow) :=
  if id.isNaN then
    .error (.notFound ("Invalid Job ID: " ++ id.display))
  else
    match sqlForPartialUpdate data jobUpdateAliases with
    | .error e => .error e
    | .ok _ =>
      match jsToNumber id with
      | none => .error (.notFound ("Invalid Job ID: " ++ id.display))
      | some n =>
        match dbUpdateJobs table n (updateSetPairs data jobUpdateAliases) with
        | none => .error (.dbFault "column does not exist")
        | some (_, none) => .error (.notFound ("Invalid Job ID: " ++ id.display))
        | some (table2, some row) => .ok (table2, row)

/-- Embedding of `Job.remove` (src/models/job.js lines 219-234): a NaN
identifier throws `NotFoundError`; `DELETE FROM jobs WHERE id = $1
RETURNING id` removes every matching row; an empty result throws
`NotFoundError` (with a different message but the same class). -/
def remove (table : List JobRow) (id : JSVal) : Except JobError (List JobRow × Int) :=
  if id.isNaN then
    .error (.notFound ("Invalid Job ID: " ++ id.display))
  else
    match jsToNumber id with
    | none => .error (.notFound ("Invalid Job ID: " ++ id.display))
    | some n =>
      match (table.filter (fun r => r.id = n)).head? with
      | none => .error (.notFound ("No job with ID: " ++ id.display))
      | some r => .ok (table.filter (fun r => !(r.id = n : Bool)), r.id)

end Job

/-- Outcome of the GET /jobs handler: the unfiltered listing, or the result
of `Job.findAllFiltered` (which is `none`, i.e. `undefined`, when no branch
matched). -/
inductive RouteResult where
  | allJobs
  | filtered (q : Option QuerySpec)
deriving DecidableEq, Repr

/-- How the route layer turns `req.query` (string-valued key list) into the
object destructured by `Job.findAllFiltered`: a present key yields its raw
string value, an absent key yields `undefined`. -/
def queryToCriteria (q : List (String × String)) : FilterCriteria :=
  { title := match q.lookup "title" with | some s => .str s | none => .undef,
    minSalary := match q.lookup "minSalary" with | some s => .str s | none => .undef,
    hasEquity := match q.lookup "hasEquity" with | some s => .str s | none => .undef }

/-- Embedding of the GET /jobs handler (src/routes/jobs.js lines 52-74):
an empty query string lists all jobs; otherwise every key must be one of
title, minSalary, hasEquity (else a 400 `ExpressError`), and the raw query
object is forwarded to `Job.findAllFiltered`. -/
def getJobs (query : List (String × String)) : Except JobError RouteResult :=
  if query.length = 0 then
    .ok .allJobs
  else if query.any (fun kv => !(["title", "minSalary", "hasEquity"].contains kv.1)) then
    .error (.express "You may only filter on title, salary and equity" 400)
  else
    .ok (.filtered (findAllFiltered (queryToCriteria query)))

/-- Does a pattern start the given character list? -/
def charsStartWith : List Char → List Char → Bool
  | [], _ => true
  | _ :: _, [] => false
  | p :: ps, c :: cs => p == c && charsStartWith ps cs

/-- Does a pattern occur anywhere in the given character list? -/
def charsContain (pat : List Char) : List Char → Bool
  | [] => charsStartWith pat []
  | c :: cs => charsStartWith pat (c :: cs) || charsContain pat cs

/-- Substring occurrence on strings, by character list. -/
def strContainsSub (s pat : String) : Bool := charsContain pat.toList s.toList

/-- ASCII lowercasing of one character, as JavaScript `toLowerCase` acts on
the ASCII range. -/
def charLower (c : Char) : Char :=
  if 'A' ≤ c && c ≤ 'Z' then Char.ofNat (c.toNat + 32) else c

/-- ASCII lowercasing of a string (JavaScript `toLowerCase` on ASCII input). -/
def lowerAscii (s : String) : String := String.mk (s.toList.map charLower)

/-- Sort direction denoted by an ORDER BY text: SQL defaults to ascending
unless the clause ends in ` DESC`. -/
inductive SortDir where
  | asc
  | desc
deriving DecidableEq, Repr

/-- Direction of an ORDER BY clause text. -/
def sortDirOf (s : String) : SortDir :=
  if charsContain " DESC".toList s.toList then .desc else .asc

/-- SQL truth of the predicate `equity != 0` at a stored equity value, where
`none` embeds SQL NULL (which satisfies no comparison; such rows are not
returned). -/
def equityPredHolds (e : Option ℚ) : Prop := ∃ v, e = some v ∧ v ≠ 0

/-- Helper: any criteria with truthy `hasEquity` hits a branch whose WHERE
clause ends with the equity predicate and whose parameter list ends with the
literal `0` bound to that predicate's placeholder. -/
theorem equityPred_of_truthy (c : FilterCriteria) (h : c.hasEquity.truthy = true) :
    ∃ q ps, findAllFiltered c = some q ∧ q.params = ps ++ [JSVal.num 0] ∧
      ∃ pre, q.whereClause = pre ++ "equity != $" ++ toString (ps.length + 1) := by
  cases ht : c.title.truthy <;> cases hm : c.minSalary.truthy <;>
    simp only [findAllFiltered, h, ht, hm, Bool.and_true, Bool.and_false, Bool.true_and,
      Bool.false_and, Bool.not_true, Bool.not_false, if_true, if_false]
  · exact ⟨_, [], rfl, rfl, "", rfl⟩
  · exact ⟨_, [c.minSalary], rfl, rfl, "salary >= $1 AND ", by simp only [List.length_cons, List.length_nil]; decide⟩
  · exact ⟨_, [.str ("%" ++ c.title.display ++ "%")], rfl, rfl,
      "LOWER(jobs.title) LIKE $1 AND ", by simp only [List.length_cons, List.length_nil]; decide⟩
  · exact ⟨_, [.str ("%" ++ c.title.display ++ "%"), c.minSalary], rfl, rfl,
      "LOWER(jobs.title) LIKE $1 AND salary >= $2 AND ", by simp only [List.length_cons, List.length_nil]; decide⟩

/-- Helper: the fragment list built with the counter starting at `i` equals
the map over the payload enumerated from `i`. -/
theorem setFragments_enumFrom (A : List (String × String)) :
    ∀ (data : List (String × JSVal)) (i : Nat),
      setFragments A i data = (List.enumFrom i data).map
        (fun p => "\"" ++ ((A.lookup p.2.1).getD p.2.1) ++ "\"=$" ++ toString (p.1 + 1)) := by
  intro data
  induction data with
  | nil => intro i; rfl
  | cons kv rest ih =>
    intro i
    simp only [setFragments, List.enumFrom, List.map_cons, ih (i + 1)]

/-- Helper: the fragment list equals the map over the enumerated payload. -/
theorem setFragments_enum (A : List (String × String)) (data : List (String × JSVal)) :
    setFragments A 0 data = (data.enum).map
      (fun p => "\"" ++ ((A.lookup p.2.1).getD p.2.1) ++ "\"=$" ++ toString (p.1 + 1)) :=
  setFragments_enumFrom A data 0

/-- Claim C1, counterexample: the claim says the title parameter is the
lowercased substring; at criteria `{title:"ENG", minSalary:50000}` the built
query binds the raw substring `%ENG%`, which differs from the lowercased
`%eng%` the claim requires, so the match is not case-insensitive for
substrings with uppercase characters. -/
theorem C1_counterexample :
    findAllFiltered { title := .str "ENG", minSalary := .num 50000, hasEquity := .undef } =
      some ⟨"LOWER(jobs.title) LIKE $1 AND salary >= $2",
            [.str "%ENG%", .num 50000], "salary DESC"⟩ ∧
    JSVal.str "%ENG%" ≠ .str ("%" ++ lowerAscii "ENG" ++ "%") := by
  constructor
  · decide
  · decide

/-- Claim C1 (amended): for every criteria with truthy title, the built
query's WHERE clause starts with `LOWER(jobs.title) LIKE $1` and its first
parameter is the raw (not lowercased) substring wrapped in `%`; for the
substring "eng", which has no uppercase characters, this gives exactly the
claimed query: `{title:"eng", minSalary:50000}` yields predicate
`LOWER(jobs.title) LIKE $1 AND salary >= $2` with parameters
`["%eng%", 50000]`. -/
theorem C1_title_predicate (c : FilterCriteria) (h : c.title.truthy = true) :
    (∃ q, findAllFiltered c = some q ∧
       q.params.head? = some (.str ("%" ++ c.title.display ++ "%")) ∧
       ∃ rest, q.whereClause = "LOWER(jobs.title) LIKE $1" ++ rest) ∧
    findAllFiltered { title := .str "eng", minSalary := .num 50000, hasEquity := .undef } =
      some ⟨"LOWER(jobs.title) LIKE $1 AND salary >= $2",
            [.str "%eng%", .num 50000], "salary DESC"⟩ := by
  refine ⟨?_, by decide⟩
  cases hm : c.minSalary.truthy <;> cases he : c.hasEquity.truthy <;>
    simp only [findAllFiltered, h, hm, he, Bool.and_true, Bool.and_false, Bool.true_and,
      Bool.false_and, Bool.not_true, Bool.not_false, if_true, if_false]
  · exact ⟨_, rfl, rfl, "", by simp only []; decide⟩
  · exact ⟨_, rfl, rfl, " AND equity != $2", by simp only []; decide⟩
  · exact ⟨_, rfl, rfl, " AND salary >= $2", by simp only []; decide⟩
  · exact ⟨_, rfl, rfl, " AND salary >= $2 AND equity != $3", by simp only []; decide⟩

/-- Claim C2, counterexample: the claim says a present `minSalary` — 0
included — always contributes the predicate `salary >= minSalary`; at
criteria `{title:"eng", minSalary:0}` (the number 0 is falsy in
JavaScript) the salary predicate is silently dropped: the query has no
`salary >=` text and 0 is not in the parameter list. -/
theorem C2_counterexample :
    findAllFiltered { title := .str "eng", minSalary := .num 0, hasEquity := .undef } =
      some ⟨"LOWER(jobs.title) LIKE $1", [.str "%eng%"], "salary DESC"⟩ ∧
    strContainsSub "LOWER(jobs.title) LIKE $1" "salary >=" = false ∧
    JSVal.num 0 ∉ [JSVal.str "%eng%"] := by
  refine ⟨by decide, by decide, by decide⟩

/-- Claim C2 (amended): presence of each criterion is its JavaScript
truthiness; for every criteria in which `minSalary` is truthy (nonzero
number or non-empty string), the built query contains the predicate
`salary >= $k` where `$k` is bound to `minSalary` in the parameter list;
no truthy criterion's predicate is dropped. -/
theorem C2_minSalary_predicate (c : FilterCriteria) (h : c.minSalary.truthy = true) :
    ∃ q ps1 ps2 pre post,
      findAllFiltered c = some q ∧
      q.params = ps1 ++ c.minSalary :: ps2 ∧
      q.whereClause = pre ++ "salary >= $" ++ toString (ps1.length + 1) ++ post := by
  cases ht : c.title.truthy <;> cases he : c.hasEquity.truthy <;>
    simp only [findAllFiltered, h, ht, he, Bool.and_true, Bool.and_false, Bool.true_and,
      Bool.false_and, Bool.not_true, Bool.not_false, if_true, if_false]
  · exact ⟨_, [], [], "", "", rfl, rfl, by simp only []; decide⟩
  · exact ⟨_, [], [.num 0], "", " AND equity != $2", rfl, rfl, by simp only []; decide⟩
  · exact ⟨_, [.str ("%" ++ c.title.display ++ "%")], [], "LOWER(jobs.title) LIKE $1 AND ",
      "", rfl, rfl, by simp only [List.length_cons, List.length_nil]; decide⟩
  · exact ⟨_, [.str ("%" ++ c.title.display ++ "%")], [.num 0],
      "LOWER(jobs.title) LIKE $1 AND ", " AND equity != $3", rfl, rfl,
      by simp only [List.length_cons, List.length_nil]; decide⟩

/-- Claim C5: every query built by `Job.findAllFiltered` orders by
`salary DESC` (descending), while the unfiltered `Job.findAll` orders by
`company_handle` (ascending, SQL default) — the asymmetry holds for every
input. -/
theorem C5_sort_asymmetry :
    (∀ c q, findAllFiltered c = some q →
        q.orderBy = "salary DESC" ∧ sortDirOf q.orderBy = .desc) ∧
    findAllOrderBy = "company_handle" ∧ sortDirOf findAllOrderBy = .asc := by
  refine ⟨?_, rfl, by decide⟩
  intro c q h
  unfold findAllFiltered at h
  repeat' split at h
  all_goals first
    | (injection h with h; subst h;
       exact ⟨rfl, by show sortDirOf "salary DESC" = SortDir.desc; decide⟩)
    | exact absurd h (by simp)

/-- Claim C5 witness at `{hasEquity: true}` and its built query. -/
theorem C5_sort_asymmetry_witness :
    (⟨"equity != $1", [JSVal.num 0], "salary DESC"⟩ : QuerySpec).orderBy = "salary DESC" ∧
    sortDirOf (⟨"equity != $1", [JSVal.num 0], "salary DESC"⟩ : QuerySpec).orderBy = .desc :=
  C5_sort_asymmetry.1 { hasEquity := .bool true } _ (by decide)

/-- Claim C6: every criteria with truthy `hasEquity` builds a query whose
WHERE clause ends with the predicate `equity != $k` with the literal 0
appended to the parameter list as `$k`'s binding; `{hasEquity:true}` alone
yields exactly `equity != $1` with parameters `[0]`; a falsy or absent
`hasEquity` contributes no equity predicate; and at any non-NULL stored
equity value `v ≥ 0` the predicate holds exactly when `v` is strictly
greater than zero. -/
theorem C6_hasEquity_predicate (c : FilterCriteria) (h : c.hasEquity.truthy = true) :
    (∃ q ps, findAllFiltered c = some q ∧ q.params = ps ++ [JSVal.num 0] ∧
       ∃ pre, q.whereClause = pre ++ "equity != $" ++ toString (ps.length + 1)) ∧
    findAllFiltered { hasEquity := .bool true } =
      some ⟨"equity != $1", [.num 0], "salary DESC"⟩ ∧
    (∀ c2 q2, c2.hasEquity.truthy = false → findAllFiltered c2 = some q2 →
       strContainsSub q2.whereClause "equity" = false) ∧
    (∀ (e : Option ℚ) (v : ℚ), e = some v → 0 ≤ v → (equityPredHolds e ↔ 0 < v)) := by
  refine ⟨equityPred_of_truthy c h, by decide, ?_, ?_⟩
  · intro c2 q2 h2 hq2
    unfold findAllFiltered at hq2
    cases ht : c2.title.truthy <;> cases hm : c2.minSalary.truthy <;>
      simp only [ht, hm, h2, Bool.and_true, Bool.and_false, Bool.true_and,
        Bool.false_and, Bool.not_true, Bool.not_false, if_true, if_false] at hq2
    · exact Option.noConfusion hq2
    · injection hq2 with hq2; subst hq2
      show strContainsSub "salary >= $1" "equity" = false
      decide
    · injection hq2 with hq2; subst hq2
      show strContainsSub "LOWER(jobs.title) LIKE $1" "equity" = false
      decide
    · injection hq2 with hq2; subst hq2
      show strContainsSub "LOWER(jobs.title) LIKE $1 AND salary >= $2" "equity" = false
      decide
  · intro e v he hv
    subst he
    constructor
    · rintro ⟨w, hw, hne⟩
      injection hw with hw
      subst hw
      exact lt_of_le_of_ne hv (Ne.symm hne)
    · intro hpos
      exact ⟨v, rfl, ne_of_gt hpos⟩

/-- Claim C6 witness at `{title:"a", minSalary:1, hasEquity:true}`. -/
theorem C6_hasEquity_predicate_witness :
    (∃ q ps, findAllFiltered { title := .str "a", minSalary := .num 1, hasEquity := .bool true }
        = some q ∧ q.params = ps ++ [JSVal.num 0] ∧
       ∃ pre, q.whereClause = pre ++ "equity != $" ++ toString (ps.length + 1)) ∧
    findAllFiltered { hasEquity := .bool true } =
      some ⟨"equity != $1", [.num 0], "salary DESC"⟩ ∧
    (∀ c2 q2, c2.hasEquity.truthy = false → findAllFiltered c2 = some q2 →
       strContainsSub q2.whereClause "equity" = false) ∧
    (∀ (e : Option ℚ) (v : ℚ), e = some v → 0 ≤ v → (equityPredHolds e ↔ 0 < v)) :=
  C6_hasEquity_predicate { title := .str "a", minSalary := .num 1, hasEquity := .bool true }
    (by decide)

/-- Claim C1 witness at `{title:"eng", minSalary:50000}`. -/
theorem C1_title_predicate_witness :
    (∃ q, findAllFiltered { title := .str "eng", minSalary := .num 50000, hasEquity := .undef }
        = some q ∧
       q.params.head? = some (.str ("%" ++ (JSVal.str "eng").display ++ "%")) ∧
       ∃ rest, q.whereClause = "LOWER(jobs.title) LIKE $1" ++ rest) ∧
    findAllFiltered { title := .str "eng", minSalary := .num 50000, hasEquity := .undef } =
      some ⟨"LOWER(jobs.title) LIKE $1 AND salary >= $2",
            [.str "%eng%", .num 50000], "salary DESC"⟩ :=
  C1_title_predicate { title := .str "eng", minSalary := .num 50000, hasEquity := .undef }
    (by decide)

/-- Claim C2 witness at `{minSalary:50000}`. -/
theorem C2_minSalary_predicate_witness :
    ∃ q ps1 ps2 pre post,
      findAllFiltered { title := .undef, minSalary := .num 50000, hasEquity := .undef }
        = some q ∧
      q.params = ps1 ++ (JSVal.num 50000) :: ps2 ∧
      q.whereClause = pre ++ "salary >= $" ++ toString (ps1.length + 1) ++ post :=
  C2_minSalary_predicate { title := .undef, minSalary := .num 50000, hasEquity := .undef }
    (by decide)

/-- Claim C3: for every non-empty payload and every alias map,
`sqlForPartialUpdate` succeeds; `values` is the payload's value sequence in
key insertion order, unchanged and of the same length as the key list; and
`setCols` is the comma-joined sequence of `"<column>"=$i` fragments, `i`
running 1..N in that order, the column being the alias-map entry for the
key when present and the key itself otherwise. The concrete vector of
src/helpers/sql.test.js is reproduced exactly. -/
theorem C3_partial_update_shape (data : List (String × JSVal)) (A : List (String × String))
    (h : data ≠ []) :
    (∃ r, sqlForPartialUpdate data A = .ok r ∧
       r.values = data.map Prod.snd ∧
       r.values.length = data.length ∧
       r.setCols = String.intercalate ", "
         ((data.enum).map (fun p =>
           "\"" ++ ((A.lookup p.2.1).getD p.2.1) ++ "\"=$" ++ toString (p.1 + 1)))) ∧
    sqlForPartialUpdate
        [("name", .str "Bauer-Gallagher"),
         ("description", .str "Difficult ready trip question produce produce someone."),
         ("numEmployees", .num 1000)]
        [("numEmployees", "num_employees"), ("logoUrl", "logo_url")] =
      .ok ⟨"\"name\"=$1, \"description\"=$2, \"num_employees\"=$3",
           [.str "Bauer-Gallagher",
            .str "Difficult ready trip question produce produce someone.",
            .num 1000]⟩ := by
  refine ⟨?_, rfl⟩
  have hlen : ¬data.length = 0 := by
    simpa [List.length_eq_zero] using h
  have hok : sqlForPartialUpdate data A =
      .ok ⟨String.intercalate ", " (setFragments A 0 data), data.map Prod.snd⟩ := by
    simp only [sqlForPartialUpdate, if_neg hlen]
  refine ⟨_, hok, rfl, by simp, ?_⟩
  show String.intercalate ", " (setFragments A 0 data) = _
  rw [setFragments_enum]

/-- Claim C3 witness at the payload/alias map of src/helpers/sql.test.js. -/
theorem C3_partial_update_shape_witness :
    (∃ r, sqlForPartialUpdate
        [("name", JSVal.str "Bauer-Gallagher"),
         ("description", JSVal.str "Difficult ready trip question produce produce someone."),
         ("numEmployees", JSVal.num 1000)]
        [("numEmployees", "num_employees"), ("logoUrl", "logo_url")] = .ok r ∧
       r.values = [("name", JSVal.str "Bauer-Gallagher"),
         ("description", JSVal.str "Difficult ready trip question produce produce someone."),
         ("numEmployees", JSVal.num 1000)].map Prod.snd ∧
       r.values.length = [("name", JSVal.str "Bauer-Gallagher"),
         ("description", JSVal.str "Difficult ready trip question produce produce someone."),
         ("numEmployees", JSVal.num 1000)].length ∧
       r.setCols = String.intercalate ", "
         (([("name", JSVal.str "Bauer-Gallagher"),
            ("description", JSVal.str "Difficult ready trip question produce produce someone."),
            ("numEmployees", JSVal.num 1000)].enum).map (fun p =>
           "\"" ++ (([("numEmployees", "num_employees"), ("logoUrl", "logo_url")].lookup p.2.1).getD p.2.1)
             ++ "\"=$" ++ toString (p.1 + 1)))) ∧
    sqlForPartialUpdate
        [("name", .str "Bauer-Gallagher"),
         ("description", .str "Difficult ready trip question produce produce someone."),
         ("numEmployees", .num 1000)]
        [("numEmployees", "num_employees"), ("logoUrl", "logo_url")] =
      .ok ⟨"\"name\"=$1, \"description\"=$2, \"num_employees\"=$3",
           [.str "Bauer-Gallagher",
            .str "Difficult ready trip question produce produce someone.",
            .num 1000]⟩ :=
  C3_partial_update_shape
    [("name", .str "Bauer-Gallagher"),
     ("description", .str "Difficult ready trip question produce produce someone."),
     ("numEmployees", .num 1000)]
    [("numEmployees", "num_employees"), ("logoUrl", "logo_url")]
    (by decide)

/-- Claim C4, counterexample: the claim says `Job.update(id, {})` raises the
bad-request (NoFieldsError-class) error for every id; at the non-numeric id
"nope" the `isNaN` guard fires first and the error raised is the not-found
class, mapped to 404, not 400. -/
theorem C4_counterexample :
    Job.update [] (.str "nope") [] = .error (.notFound "Invalid Job ID: nope") ∧
    JobError.isNotFoundClass (.notFound "Invalid Job ID: nope") = true ∧
    httpStatus (.notFound "Invalid Job ID: nope") = 404 := by
  refine ⟨rfl, rfl, rfl⟩

/-- Claim C4 (amended): for every alias map, the partial-update builder
fails on the empty payload with the bad-request (NoFieldsError-class)
error, mapped to HTTP 400; consequently `Job.update(id, {})` raises that
error for every id in valid numeric form (a non-numeric id instead hits the
earlier isNaN guard, see the counterexample), on every table. -/
theorem C4_empty_payload (A : List (String × String)) (table : List JobRow) (id : JSVal)
    (h : id.isNaN = false) :
    sqlForPartialUpdate [] A = .error (.badRequest "No data") ∧
    Job.update table id [] = .error (.badRequest "No data") ∧
    httpStatus (.badRequest "No data") = 400 := by
  refine ⟨rfl, ?_, rfl⟩
  simp only [Job.update, h, Bool.false_eq_true, if_false]
  rfl

/-- Claim C4 witness at alias map `[("a","b")]`, the empty table and id 7. -/
theorem C4_empty_payload_witness :
    sqlForPartialUpdate [] [("a", "b")] = .error (.badRequest "No data") ∧
    Job.update [] (.num 7) [] = .error (.badRequest "No data") ∧
    httpStatus (.badRequest "No data") = 400 :=
  C4_empty_payload [("a", "b")] [] (.num 7) (by decide)

/-- Claim C8, counterexample: the claim gives `?minSalary=0` as a falsy
query-string value reaching the all-false combination; in fact the route
forwards the string "0", which is truthy, so that request hits the
minSalary branch and issues a query rather than returning nothing. -/
theorem C8_counterexample :
    getJobs [("minSalary", "0")] =
      .ok (.filtered (some ⟨"salary >= $1", [.str "0"], "salary DESC"⟩)) ∧
    (JSVal.str "0").truthy = true := by
  refine ⟨rfl, by decide⟩

/-- Claim C8 (amended): when all three criteria are falsy,
`Job.findAllFiltered` matches no branch, issues no query and returns
`undefined`; this all-falsy combination is reachable through GET /jobs
because the route invokes `findAllFiltered` whenever the query string has
at least one allowed key even if its value is falsy — e.g. `?title=`
(empty string value), though not `?minSalary=0`, whose value is the truthy
string "0" (see the counterexample). -/
theorem C8_all_falsy_no_query (c : FilterCriteria)
    (h1 : c.title.truthy = false) (h2 : c.minSalary.truthy = false)
    (h3 : c.hasEquity.truthy = false) :
    findAllFiltered c = none ∧
    getJobs [("title", "")] = .ok (.filtered none) ∧
    (queryToCriteria [("title", "")]).title = .str "" ∧
    (JSVal.str "").truthy = false := by
  refine ⟨?_, rfl, by decide, by decide⟩
  simp [findAllFiltered, h1, h2, h3]

/-- Claim C8 witness at the all-`undefined` criteria. -/
theorem C8_all_falsy_no_query_witness :
    findAllFiltered { title := .undef, minSalary := .undef, hasEquity := .undef } = none ∧
    getJobs [("title", "")] = .ok (.filtered none) ∧
    (queryToCriteria [("title", "")]).title = .str "" ∧
    (JSVal.str "").truthy = false :=
  C8_all_falsy_no_query { title := .undef, minSalary := .undef, hasEquity := .undef }
    (by decide) (by decide) (by decide)

/-- Claim C9, counterexample: the claim says no present-but-false
`hasEquity` can be passed through the HTTP interface; the request
`?title=x&hasEquity=` forwards `hasEquity` present with the falsy empty
string, and the resulting query carries no equity predicate. -/
theorem C9_counterexample :
    getJobs [("title", "x"), ("hasEquity", "")] =
      .ok (.filtered (some ⟨"LOWER(jobs.title) LIKE $1", [.str "%x%"], "salary DESC"⟩)) ∧
    (queryToCriteria [("title", "x"), ("hasEquity", "")]).hasEquity = .str "" ∧
    (JSVal.str "").truthy = false ∧
    strContainsSub "LOWER(jobs.title) LIKE $1" "equity" = false := by
  refine ⟨rfl, by decide, by decide, by decide⟩

/-- Claim C9 (amended): the route forwards query-string values as raw
strings and every non-empty string is truthy, so any non-empty value
supplied for `hasEquity` — including "false" and "0" — activates the
`equity != 0` predicate; the only falsy `hasEquity` passable through the
HTTP interface is the empty value (e.g. `?hasEquity=`), which contributes
no equity predicate (see the counterexample). -/
theorem C9_hasEquity_string_truthy (qs : List (String × String)) (s : String)
    (h1 : qs.lookup "hasEquity" = some s) (h2 : s ≠ "") :
    ((queryToCriteria qs).hasEquity).truthy = true ∧
    (JSVal.str "false").truthy = true ∧
    (JSVal.str "0").truthy = true ∧
    ∃ q ps, findAllFiltered (queryToCriteria qs) = some q ∧
      q.params = ps ++ [JSVal.num 0] ∧
      ∃ pre, q.whereClause = pre ++ "equity != $" ++ toString (ps.length + 1) := by
  have hhe : ((queryToCriteria qs).hasEquity).truthy = true := by
    simp only [queryToCriteria, h1]
    simpa [JSVal.truthy] using h2
  exact ⟨hhe, by decide, by decide, equityPred_of_truthy _ hhe⟩

/-- Claim C9 witness at the query string `?hasEquity=false`. -/
theorem C9_hasEquity_string_truthy_witness :
    ((queryToCriteria [("hasEquity", "false")]).hasEquity).truthy = true ∧
    (JSVal.str "false").truthy = true ∧
    (JSVal.str "0").truthy = true ∧
    ∃ q ps, findAllFiltered (queryToCriteria [("hasEquity", "false")]) = some q ∧
      q.params = ps ++ [JSVal.num 0] ∧
      ∃ pre, q.whereClause = pre ++ "equity != $" ++ toString (ps.length + 1) :=
  C9_hasEquity_string_truthy [("hasEquity", "false")] "false" (by decide) (by decide)

/-- Helper: updating a table in which no row has the target id leaves the
table unchanged and returns no row. -/
theorem dbUpdateJobs_no_match (sets : List (String × JSVal)) :
    ∀ (table : List JobRow) (n : Int), (∀ r ∈ table, r.id ≠ n) →
      dbUpdateJobs table n sets = some (table, none) := by
  intro table
  induction table with
  | nil => intro n _; rfl
  | cons r rest ih =>
    intro n h
    have hr : r.id ≠ n := h r (List.mem_cons_self r rest)
    have hrest := ih n (fun x hx => h x (List.mem_cons_of_mem r hx))
    simp [dbUpdateJobs, hrest, hr]

/-- Claim C7: a NaN identifier makes `Job.get`, `Job.update` and
`Job.remove` all fail with the not-found error class, exactly the class
they produce for a numeric identifier matching no stored job; the
non-numeric case is never surfaced as a distinct validation error. -/
theorem C7_invalid_id_not_found (table : List JobRow) (id : JSVal)
    (h : id.isNaN = true) :
    (∃ m, Job.get table id = .error (.notFound m)) ∧
    (∀ data, ∃ m, Job.update table id data = .error (.notFound m)) ∧
    (∃ m, Job.remove table id = .error (.notFound m)) ∧
    (∀ n : Int, (∀ r ∈ table, r.id ≠ n) →
      (∃ m, Job.get table (.num n) = .error (.notFound m)) ∧
      (∀ data, data ≠ [] → ∃ m, Job.update table (.num n) data = .error (.notFound m)) ∧
      (∃ m, Job.remove table (.num n) = .error (.notFound m))) := by
  refine ⟨⟨"Invalid Job ID: " ++ id.display, by simp [Job.get, h]⟩,
    fun data => ⟨"Invalid Job ID: " ++ id.display, by simp [Job.update, h]⟩,
    ⟨"Invalid Job ID: " ++ id.display, by simp [Job.remove, h]⟩, ?_⟩
  intro n hno
  have hfind : table.find? (fun r => r.id = n) = none :=
    List.find?_eq_none.mpr (by simpa using hno)
  have hfilter : table.filter (fun r => r.id = n) = [] :=
    List.filter_eq_nil_iff.mpr (by simpa using hno)
  refine ⟨⟨"Invalid Job ID: " ++ (JSVal.num n).display, ?_⟩, ?_,
    ⟨"No job with ID: " ++ (JSVal.num n).display, ?_⟩⟩
  · simp [Job.get, JSVal.isNaN, jsToNumber, hfind]
  · intro data hdata
    have hlen : ¬data.length = 0 := by simpa [List.length_eq_zero] using hdata
    have hupd := dbUpdateJobs_no_match (updateSetPairs data jobUpdateAliases) table n hno
    exact ⟨"Invalid Job ID: " ++ (JSVal.num n).display,
      by simp [Job.update, JSVal.isNaN, jsToNumber, sqlForPartialUpdate, hlen, hupd]⟩
  · simp [Job.remove, JSVal.isNaN, jsToNumber, hfilter]

/-- Claim C7 witness at the empty table and the identifier "nope". -/
theorem C7_invalid_id_not_found_witness :
    (∃ m, Job.get [] (.str "nope") = .error (.notFound m)) ∧
    (∀ data, ∃ m, Job.update [] (.str "nope") data = .error (.notFound m)) ∧
    (∃ m, Job.remove [] (.str "nope") = .error (.notFound m)) ∧
    (∀ n : Int, (∀ r ∈ ([] : List JobRow), r.id ≠ n) →
      (∃ m, Job.get [] (.num n) = .error (.notFound m)) ∧
      (∀ data, data ≠ [] → ∃ m, Job.update [] (.num n) data = .error (.notFound m)) ∧
      (∃ m, Job.remove [] (.num n) = .error (.notFound m))) :=
  C7_invalid_id_not_found [] (.str "nope") (by decide)

/-- Helper: applying SET pairs whose columns are all payload-updatable job
columns succeeds and never changes `id` or `company_handle`. -/
theorem applySets_keeps_frame :
    ∀ (sets : List (String × JSVal)) (r : JobRow),
      (∀ kv ∈ sets, kv.1 = "title" ∨ kv.1 = "salary" ∨ kv.1 = "equity") →
      ∃ r2, applySets r sets = some r2 ∧ r2.id = r.id ∧
        r2.company_handle = r.company_handle := by
  intro sets
  induction sets with
  | nil => intro r _; exact ⟨r, rfl, rfl, rfl⟩
  | cons kv rest ih =>
    intro r h
    have hk := h kv (List.mem_cons_self kv rest)
    have hrest := fun x hx => h x (List.mem_cons_of_mem kv hx)
    have hset : ∃ r1, setColumn r kv.1 kv.2 = some r1 ∧ r1.id = r.id ∧
        r1.company_handle = r.company_handle := by
      rcases hk with h1 | h1 | h1
      · exact ⟨{ r with title := kv.2 }, by simp [setColumn, h1], rfl, rfl⟩
      · exact ⟨{ r with salary := kv.2 }, by simp [setColumn, h1], rfl, rfl⟩
      · exact ⟨{ r with equity := kv.2 }, by simp [setColumn, h1], rfl, rfl⟩
    rcases hset with ⟨r1, hset, hid1, hch1⟩
    rcases ih r1 hrest with ⟨r2, happ, hid2, hch2⟩
    exact ⟨r2, by simp [applySets, hset, happ], hid2.trans hid1, hch2.trans hch1⟩

/-- Helper: the UPDATE semantics — rows with the target id are updated with
`id` and `company_handle` preserved, every other row is returned unchanged,
and any returned row originates from a table row with the target id. -/
theorem dbUpdateJobs_frame (sets : List (String × JSVal))
    (hcols : ∀ kv ∈ sets, kv.1 = "title" ∨ kv.1 = "salary" ∨ kv.1 = "equity") :
    ∀ (table : List JobRow) (n : Int),
      ∃ t2 ret, dbUpdateJobs table n sets = some (t2, ret) ∧
        List.Forall₂ (fun (r r2 : JobRow) => r2.id = r.id ∧ r2.company_handle = r.company_handle ∧
          (r.id ≠ n → r2 = r)) table t2 ∧
        ∀ row, ret = some row → ∃ orig, orig ∈ table ∧ orig.id = n ∧
          row.id = orig.id ∧ row.company_handle = orig.company_handle := by
  intro table
  induction table with
  | nil =>
    intro n
    exact ⟨[], none, rfl, List.Forall₂.nil, fun row hrow => Option.noConfusion hrow⟩
  | cons r rest ih =>
    intro n
    rcases ih n with ⟨t2, ret, hdb, hfa, hret⟩
    by_cases hid : r.id = n
    · rcases applySets_keeps_frame sets r hcols with ⟨r2, happ, hid2, hch2⟩
      refine ⟨r2 :: t2, some r2, ?_, ?_, ?_⟩
      · simp [dbUpdateJobs, hdb, hid, happ]
      · exact List.Forall₂.cons ⟨hid2, hch2, fun hne => absurd hid hne⟩ hfa
      · intro row hrow
        injection hrow with hrow
        subst hrow
        exact ⟨r, List.mem_cons_self r rest, hid, hid2, hch2⟩
    · refine ⟨r :: t2, ret, ?_, ?_, ?_⟩
      · simp [dbUpdateJobs, hdb, hid]
      · exact List.Forall₂.cons ⟨rfl, rfl, fun _ => rfl⟩ hfa
      · intro row hrow
        rcases hret row hrow with ⟨orig, ho, h1, h2, h3⟩
        exact ⟨orig, List.mem_cons_of_mem r ho, h1, h2, h3⟩

/-- Claim C10: for every successful `Job.update` whose payload keys are
drawn from title, salary and equity, the generated SET clause names only
the columns corresponding to the payload keys; the WHERE clause targets
exactly the parsed numeric id; the updated row keeps its original `id` and
`company_handle`; and every row with a different id is unmodified. -/
theorem C10_update_frame (table : List JobRow) (id : JSVal) (data : List (String × JSVal))
    (t2 : List JobRow) (row : JobRow)
    (hkeys : ∀ kv ∈ data, kv.1 = "title" ∨ kv.1 = "salary" ∨ kv.1 = "equity")
    (hok : Job.update table id data = .ok (t2, row)) :
    (updateSetPairs data jobUpdateAliases).map Prod.fst = data.map Prod.fst ∧
    ∃ n, jsToNumber id = some n ∧
      List.Forall₂ (fun (r r2 : JobRow) => r2.id = r.id ∧ r2.company_handle = r.company_handle ∧
        (r.id ≠ n → r2 = r)) table t2 ∧
      ∃ orig, orig ∈ table ∧ orig.id = n ∧ row.id = orig.id ∧
        row.company_handle = orig.company_handle := by
  have hmap : (updateSetPairs data jobUpdateAliases).map Prod.fst = data.map Prod.fst := by
    unfold updateSetPairs
    rw [List.map_map]
    apply List.map_congr_left
    intro kv hkv
    have hres : (jobUpdateAliases.lookup kv.1).getD kv.1 = kv.1 := by
      rcases hkeys kv hkv with h1 | h1 | h1 <;> rw [h1] <;> decide
    simpa [Function.comp] using hres
  refine ⟨hmap, ?_⟩
  have hcols : ∀ kv ∈ updateSetPairs data jobUpdateAliases,
      kv.1 = "title" ∨ kv.1 = "salary" ∨ kv.1 = "equity" := by
    intro kv hkv
    unfold updateSetPairs at hkv
    rcases List.mem_map.mp hkv with ⟨kv0, hkv0, hkveq⟩
    subst hkveq
    simp only []
    rcases hkeys kv0 hkv0 with h1 | h1 | h1 <;> rw [h1] <;> decide
  cases hnan : id.isNaN with
  | true => simp [Job.update, hnan] at hok
  | false =>
    by_cases hdata : data.length = 0
    · simp [Job.update, hnan, sqlForPartialUpdate, hdata] at hok
    · obtain ⟨n, hn⟩ : ∃ n, jsToNumber id = some n := by
        cases hjs : jsToNumber id with
        | none =>
          have hcontra : id.isNaN = true := by simp [JSVal.isNaN, hjs]
          rw [hnan] at hcontra
          exact Bool.noConfusion hcontra
        | some m => exact ⟨m, rfl⟩
      rcases dbUpdateJobs_frame (updateSetPairs data jobUpdateAliases) hcols table n with
        ⟨t2', ret, hdb, hfa, hret⟩
      rw [show Job.update table id data =
            (match dbUpdateJobs table n (updateSetPairs data jobUpdateAliases) with
             | none => .error (.dbFault "column does not exist")
             | some (_, none) => .error (.notFound ("Invalid Job ID: " ++ id.display))
             | some (tb, some r0) => .ok (tb, r0)) from by
          simp [Job.update, hnan, sqlForPartialUpdate, hdata, hn]] at hok
      rw [hdb] at hok
      cases ret with
      | none => exact absurd hok (by simp)
      | some row0 =>
        simp only [Except.ok.injEq, Prod.mk.injEq] at hok
        rcases hok with ⟨ht2, hrow⟩
        subst ht2
        subst hrow
        rcases hret row0 rfl with ⟨orig, ho, h1, h2, h3⟩
        exact ⟨n, hn, hfa, orig, ho, h1, h2, h3⟩

/-- Claim C10 witness at a one-row table updated at id 1 with a new title. -/
theorem C10_update_frame_witness :
    (updateSetPairs [("title", JSVal.str "New")] jobUpdateAliases).map Prod.fst =
      [("title", JSVal.str "New")].map Prod.fst ∧
    ∃ n, jsToNumber (.num 1) = some n ∧
      List.Forall₂ (fun (r r2 : JobRow) => r2.id = r.id ∧ r2.company_handle = r.company_handle ∧
        (r.id ≠ n → r2 = r))
        [⟨1, .str "J3", .num 300000, .str "0.3", "c2"⟩]
        [⟨1, .str "New", .num 300000, .str "0.3", "c2"⟩] ∧
      ∃ orig, orig ∈ [(⟨1, .str "J3", .num 300000, .str "0.3", "c2"⟩ : JobRow)] ∧
        orig.id = n ∧
        (⟨1, .str "New", .num 300000, .str "0.3", "c2"⟩ : JobRow).id = orig.id ∧
        (⟨1, .str "New", .num 300000, .str "0.3", "c2"⟩ : JobRow).company_handle =
          orig.company_handle :=
  C10_update_frame [⟨1, .str "J3", .num 300000, .str "0.3", "c2"⟩] (.num 1)
    [("title", .str "New")]
    [⟨1, .str "New", .num 300000, .str "0.3", "c2"⟩]
    ⟨1, .str "New", .num 300000, .str "0.3", "c2"⟩
    (by decide) rfl

end Jobly
